import Mathlib

/-!
Shallow embedding of the five concurrency primitives of this repository
(`src/arc`, `src/rwlock`, `src/spin_lock`, `src/condvar`, `src/channel`),
together with theorems settling the spec's claims about them.

Machine integers are modelled as `Nat`, with an explicit `% 2^w` wherever
the source's wrapping arithmetic matters (the `AtomicU32` state words of the
RwLock) and with the source's own overflow guards (abort / assert) modelled
as the absence of a transition where the source kills the process.
Atomic read-modify-write operations are linearized: an interleaved execution
is a sequence of atomic steps, which is faithful because every shared-memory
access in the source is a single atomic operation.
-/

/- ===================== arc: src/arc/src/lib.rs ===================== -/

/-- `usize::MAX` on a 64-bit target. -/
def usizeMax : Nat := 2 ^ 64 - 1

/-- The clone overflow guard threshold `usize::MAX / 2` (integer division). -/
def halfUsizeMax : Nat := usizeMax / 2

/-- `impl Clone for Arc<T>` (src/arc/src/lib.rs, lines 144-152):
`data_ref_count.fetch_add(1, Relaxed)` returns the old value; if that old
value is `> usize::MAX / 2` the process aborts. Input: the pointed-to
allocation (as an address) and the current `data_ref_count`. Output:
(whether the process aborts, the counter after the `fetch_add`, the `ptr`
field of the returned handle — the same allocation). -/
def Arc.clone (ptr count : Nat) : Bool × Nat × Nat :=
  (decide (count > halfUsizeMax), count + 1, ptr)

/-- `impl Clone for Weak<T>` (src/arc/src/lib.rs, lines 51-59): identical
guard, on `alloc_ref_count`. -/
def Weak.clone (ptr count : Nat) : Bool × Nat × Nat :=
  (decide (count > halfUsizeMax), count + 1, ptr)

/-- `Arc::get_mut` (src/arc/src/lib.rs, lines 96-111), linearized without
interference (justified below: a successful `compare_exchange(1, usize::MAX)`
means no weak handle exists, and `downgrade` spins while the sentinel is in
place, so no other thread can touch `alloc_ref_count` during the call).
Input: the current `data_ref_count` and `alloc_ref_count`. Output: (whether
a mutable reference is returned, the final `alloc_ref_count`, the sequence
of values `alloc_ref_count` takes during the call). -/
def Arc.getMut (strong alloc : Nat) : Bool × Nat × List Nat :=
  if alloc = 1 then
    -- compare_exchange(1, usize::MAX, Acquire, Relaxed) succeeded:
    -- alloc_ref_count now holds the sentinel usize::MAX
    let is_unique := decide (strong = 1)
    -- arc.data().alloc_ref_count.store(1, Release)
    (is_unique, 1, [usizeMax, 1])
  else
    -- compare_exchange failed: return None, alloc_ref_count untouched
    (false, alloc, [])

/-- The two atomic counters of `ArcData<T>` that `Weak::upgrade` can see. -/
inductive ArcField where
  | dataRef
  | allocRef
deriving DecidableEq, Repr

/-- One successful atomic write performed by a call, tagged with the field
it wrote. -/
structure AtomicWrite where
  loc : ArcField
  old : Nat
  new : Nat
deriving DecidableEq, Repr

/-- The compare-and-swap loop of `Weak::upgrade` (src/arc/src/lib.rs,
lines 30-48). `c` is the value of `data_ref_count` currently observed
(initially from `load(Relaxed)`); `env` is the sequence of current values
returned by successive failed `compare_exchange_weak` attempts (one entry
per concurrent change or spurious failure); once `env` is exhausted the
next compare-and-swap succeeds. Output: (the returned value — `some` of
the new count for `Some(Arc)`, `none` for `None`; the list of atomic
writes the call itself performed; the list of `data_ref_count` values the
call observed). `alloc_ref_count` is never named by the source of
`upgrade`, hence no `allocRef` write can be produced. -/
def upgradeGo (c : Nat) : List Nat → Option Nat × List AtomicWrite × List Nat
  | [] =>
      if c = 0 then (none, [], [c])
      else (some (c + 1), [⟨ArcField.dataRef, c, c + 1⟩], [c])
  | e :: es =>
      if c = 0 then (none, [], [c])
      else
        match upgradeGo e es with
        | (r, ws, obs) => (r, ws, c :: obs)

/- ===================== spin_lock: src/spin_lock/src/lib.rs ===================== -/

/-- The observable state of a `SpinLock<T>`: the `locked` flag plus the
number of live `Guard`s handed out by `lock()`. -/
structure SpinState where
  locked : Bool
  liveGuards : Nat
deriving DecidableEq, Repr

/-- `SpinLock::unlock` (src/spin_lock/src/lib.rs, lines 30-32): takes
`&self` — no guard is consumed — and stores `false` with release ordering,
unconditionally. -/
def SpinLock.unlock (st : SpinState) : SpinState :=
  { st with locked := false }

/-- `impl Drop for Guard` (src/spin_lock/src/lib.rs, lines 57-61): runs when
a guard is destroyed, and stores `false` with release ordering. -/
def SpinGuard.drop (st : SpinState) : SpinState :=
  { locked := false, liveGuards := st.liveGuards - 1 }

/- ===================== channel: src/channel/src/lib.rs ===================== -/

/-- The atomic and blocking effects of a call to `Receiver::receive`, in
order. -/
inductive RecvEvent where
  /-- `self.channel.ready.swap(false, Acquire)` returned `observed`. -/
  | swapReady (observed : Bool)
  /-- `thread::park()` returned (a sender, third-party or spurious unpark). -/
  | park
  /-- `(*self.channel.message.get()).assume_init_read()` ran. -/
  | readMessage
deriving DecidableEq, Repr

/-- `Receiver::receive` (src/channel/src/lib.rs, lines 68-74) as the
sequence of its effects, called while the `ready` flag holds `ready`:
`if !self.channel.ready.swap(false, Acquire) { thread::park(); }` and then
the unconditional `assume_init_read` of the message slot. Note the source
uses `if`, not a loop: after `park()` returns — which any unpark, including
a spurious or third-party one, makes it do — the slot is read with no
further check of `ready`. -/
def Receiver.receive (ready : Bool) : List RecvEvent :=
  if ready then
    [RecvEvent.swapReady true, RecvEvent.readMessage]
  else
    [RecvEvent.swapReady false, RecvEvent.park, RecvEvent.readMessage]

/- ===================== rwlock: src/rwlock/src/lib.rs ===================== -/

/-- `2 ^ 32`, the wrap modulus of the `AtomicU32` words of the RwLock. -/
def w32 : Nat := 2 ^ 32

/-- `u32::MAX`, the exclusive write-lock sentinel of the RwLock state word. -/
def u32Max : Nat := w32 - 1

/-- `impl Drop for ReadGuard` (src/rwlock/src/lib.rs, lines 78-86):
`old := state.fetch_sub(2, Release)` (wrapping); if `old == 3` (so the new
state is 1: last reader left, writer-waiting bit set), do
`writer_wake_counter.fetch_add(1, Release)` and `wake_one` on it.
Input: the current `state` and `writer_wake_counter` (both `< 2 ^ 32`).
Output: (new state, new writer_wake_counter, whether wake_one was called). -/
def ReadGuard.drop (state wake : Nat) : Nat × Nat × Bool :=
  let state' := (state + (w32 - 2)) % w32
  if state = 3 then (state', (wake + 1) % w32, true)
  else (state', wake, false)

/-- The observable state of one `RwLock<T>`: its two atomic words plus the
numbers of live read and write guards. -/
structure RwState where
  state : Nat
  writer_wake_counter : Nat
  readGuards : Nat
  writeGuards : Nat
deriving DecidableEq, Repr

/-- `RwLock::new` (src/rwlock/src/lib.rs, lines 17-23): both words 0,
no guards. -/
def RwLock.new : RwState := ⟨0, 0, 0, 0⟩

/-- The atomic transitions of the RwLock protocol. Each constructor is one
successful atomic read-modify-write from the source; failed compare-exchange
attempts and futex `wait` calls do not change the state and are omitted
(stuttering). The `assert!(s != u32::MAX - 2, "too many readers")` of
`read` is a panic, modelled as the absence of a transition when it fires. -/
inductive RwStep : RwState → RwState → Prop where
  /-- `read` (lines 25-43): `s` even, assert passes, CAS `s → s + 2`
  (wrapping, as `s + 2` is computed in `u32`), acquire a read guard. -/
  | acquireRead (σ : RwState) (he : σ.state % 2 = 0) (ha : σ.state ≠ u32Max - 2) :
      RwStep σ { σ with state := (σ.state + 2) % w32, readGuards := σ.readGuards + 1 }
  /-- `write` (lines 45-71) fast path: `s <= 1`, CAS `s → u32::MAX`,
  acquire a write guard. -/
  | acquireWrite (σ : RwState) (h : σ.state ≤ 1) :
      RwStep σ { σ with state := u32Max, writeGuards := σ.writeGuards + 1 }
  /-- `write` (lines 56-61): `s` even and not `<= 1`, CAS `s → s + 1` to set
  the writer-waiting bit, then keep looping (no guard acquired). -/
  | markWriterWaiting (σ : RwState) (he : σ.state % 2 = 0) (h2 : 2 ≤ σ.state) :
      RwStep σ { σ with state := (σ.state + 1) % w32 }
  /-- `impl Drop for ReadGuard` (lines 78-86), via `ReadGuard.drop`. -/
  | dropRead (σ : RwState) (h : 1 ≤ σ.readGuards) :
      RwStep σ { σ with
        state := (ReadGuard.drop σ.state σ.writer_wake_counter).1,
        writer_wake_counter := (ReadGuard.drop σ.state σ.writer_wake_counter).2.1,
        readGuards := σ.readGuards - 1 }
  /-- `impl Drop for WriteGuard` (lines 98-105): `state := 0`,
  `writer_wake_counter.fetch_add(1, Release)`, `wake_one`, `wake_all`. -/
  | dropWrite (σ : RwState) (h : 1 ≤ σ.writeGuards) :
      RwStep σ { σ with
        state := 0,
        writer_wake_counter := (σ.writer_wake_counter + 1) % w32,
        writeGuards := σ.writeGuards - 1 }

/-- The states an `RwLock` can reach from `RwLock::new` under any
interleaving of the protocol's atomic steps. -/
inductive RwReachable : RwState → Prop where
  | init : RwReachable RwLock.new
  | step {σ σ' : RwState} : RwReachable σ → RwStep σ σ' → RwReachable σ'

/- ===================== condvar: src/condvar/src/lib.rs ===================== -/

/-- State of the Condvar lost-wakeup race between one waiter and one
notifier. The scenario starts at the point where the waiter has already run
`self.num_waiters.fetch_add(1, Relaxed)` and
`let counter_value = self.counter.load(Relaxed)` (src/condvar/src/lib.rs,
lines 35-37), so `num_waiters` already counts it and `counter_value`
equals the current `counter`. -/
structure CvState where
  counter : Nat
  num_waiters : Nat
  /-- the waiter is blocked inside `wait(&self.counter, counter_value)` -/
  waiterBlocked : Bool
  /-- the waiter's `wait(&self.counter, counter_value)` has returned -/
  waiterDone : Bool
  /-- `wake_one`/`wake_all` on `&self.counter` has been called -/
  wakeIssued : Bool
deriving DecidableEq, Repr

/-- The waiter's `wait(&self.counter, counter_value)` call (line 40): the
futex-style primitive blocks the caller while the word still equals the
expected value `v`, and returns at once otherwise. -/
def cvWaiterWait (v : Nat) (s : CvState) : CvState :=
  if s.counter = v then { s with waiterBlocked := true }
  else { s with waiterDone := true }

/-- `notify_one`/`notify_all` (lines 20-32) after their
`self.num_waiters.load(Relaxed)` returned `w`: if `w > 0`,
`self.counter.fetch_add(1, Relaxed)`. -/
def cvNotifyInc (w : Nat) (s : CvState) : CvState :=
  if w > 0 then { s with counter := s.counter + 1 } else s

/-- The closing `wake_one(&self.counter)` of `notify_one`, or
`wake_all(&self.counter)` of `notify_all`: with a single thread blocked on
the word both behave alike and wake it; run only when `w > 0`. -/
def cvNotifyWake (w : Nat) (s : CvState) : CvState :=
  if w > 0 then
    if s.waiterBlocked then
      { s with waiterBlocked := false, waiterDone := true, wakeIssued := true }
    else { s with wakeIssued := true }
  else s

/-- The whole race, parameterized by where the waiter's blocking call lands
among the notifier's three atomic actions (load `num_waiters`; increment
`counter`; wake): `p = 0` — before the load, `1` — between load and
increment (the same resulting state, as the load does not change state),
`2` — between increment and wake, `3` — after the wake. The notify starts
strictly after the waiter's counter load, so the initial state has
`counter = c0` (the recorded `counter_value`) and `num_waiters = n0 + 1`
(the waiter's own `fetch_add(1)` included; `n0` other registered but
not-blocked waiters may exist). -/
def condvarRun (c0 n0 : Nat) (p : Fin 4) : CvState :=
  let s0 : CvState := ⟨c0, n0 + 1, false, false, false⟩
  let w := s0.num_waiters
  match p with
  | 0 => cvNotifyWake w (cvNotifyInc w (cvWaiterWait c0 s0))
  | 1 => cvNotifyWake w (cvNotifyInc w (cvWaiterWait c0 s0))
  | 2 => cvNotifyWake w (cvWaiterWait c0 (cvNotifyInc w s0))
  | 3 => cvWaiterWait c0 (cvNotifyWake w (cvNotifyInc w s0))

/- ===================== arc handle/drop protocol (src/arc/src/lib.rs) ===================== -/

/-- `bcount b` is `1` when `b` holds, else `0`. -/
def bcount (b : Bool) : Nat := if b then 1 else 0

/-- The global state of one `ArcData<T>` allocation: its two atomic
counters, the live handles that point at it, and its destruction/free
history. `impWeak` is the implicit weak reference held by the group of
strong handles as one unit; `pendingImpDrop` holds between the payload
destruction inside `Drop for Arc` and the `drop(Weak { ptr })` that the
same drop call runs next. -/
structure ArcState where
  data_ref_count : Nat
  alloc_ref_count : Nat
  liveStrong : Nat
  liveWeak : Nat
  impWeak : Bool
  pendingImpDrop : Bool
  /-- `ManuallyDrop::drop` has run on the payload -/
  destroyed : Bool
  /-- `Box::from_raw` has been dropped (allocation freed) -/
  freed : Bool
  /-- number of times `ManuallyDrop::drop` ran -/
  dCount : Nat
  /-- number of times the allocation was freed -/
  fCount : Nat
deriving DecidableEq, Repr

/-- `Arc::new` (src/arc/src/lib.rs, lines 80-90): both counters start at 1;
one strong handle, no weak handle, the implicit weak reference in place. -/
def Arc.new : ArcState :=
  ⟨1, 1, 1, 0, true, false, false, false, 0, 0⟩

/-- The operation a step performs (for identifying which operation destroys
the payload or frees the allocation). -/
inductive ArcOp where
  | cloneStrong
  | dropStrong
  | cloneWeak
  | dropWeak
  | downgrade
  | upgradeOk
  | dropImplicitWeak
deriving DecidableEq, Repr

/-- The atomic transitions of the reference-counting protocol. Each
constructor is one source operation, linearized at its atomic
read-modify-write. Paths on which the source kills the thread or process
(the overflow abort of `clone`, the asserts of `upgrade` and `downgrade`)
are modelled as the absence of a transition. Handle-destroying and
handle-creating operations require a live handle of the right kind to run
on. `Drop for Arc` on the last strong handle is two steps: the payload
destruction (`dropStrongLast`) and then the implicit weak drop
(`dropImplicitWeak`), between which other threads may act. -/
inductive ArcStep : ArcState → ArcOp → ArcState → Prop where
  /-- `impl Clone for Arc` (lines 144-152): `data_ref_count.fetch_add(1)`;
  the process aborts unless the old value is `<= usize::MAX / 2`. -/
  | cloneStrong (σ : ArcState) (hl : 1 ≤ σ.liveStrong)
      (hg : σ.data_ref_count ≤ halfUsizeMax) :
      ArcStep σ ArcOp.cloneStrong
        { σ with data_ref_count := σ.data_ref_count + 1,
                 liveStrong := σ.liveStrong + 1 }
  /-- `impl Drop for Arc` (lines 154-165), `fetch_sub` returned a value
  other than 1: just decrement. -/
  | dropStrongOther (σ : ArcState) (hl : 1 ≤ σ.liveStrong)
      (h : σ.data_ref_count ≠ 1) :
      ArcStep σ ArcOp.dropStrong
        { σ with data_ref_count := σ.data_ref_count - 1,
                 liveStrong := σ.liveStrong - 1 }
  /-- `impl Drop for Arc` (lines 154-165), `fetch_sub` returned 1: acquire
  fence, `ManuallyDrop::drop` of the payload, then `drop(Weak { ptr })`
  still to run (`pendingImpDrop`). -/
  | dropStrongLast (σ : ArcState) (hl : 1 ≤ σ.liveStrong)
      (h : σ.data_ref_count = 1) :
      ArcStep σ ArcOp.dropStrong
        { σ with data_ref_count := 0, liveStrong := σ.liveStrong - 1,
                 destroyed := true, dCount := σ.dCount + 1,
                 pendingImpDrop := true }
  /-- the `drop(Weak { ptr })` at the end of `Drop for Arc` (line 163),
  running `Drop for Weak` (lines 61-69) on the implicit weak reference;
  `fetch_sub` returned a value other than 1. -/
  | dropImplicitWeakOther (σ : ArcState) (hp : σ.pendingImpDrop = true)
      (h : σ.alloc_ref_count ≠ 1) :
      ArcStep σ ArcOp.dropImplicitWeak
        { σ with alloc_ref_count := σ.alloc_ref_count - 1,
                 impWeak := false, pendingImpDrop := false }
  /-- same, `fetch_sub` returned 1: acquire fence, free the allocation
  (`Box::from_raw` dropped). -/
  | dropImplicitWeakLast (σ : ArcState) (hp : σ.pendingImpDrop = true)
      (h : σ.alloc_ref_count = 1) :
      ArcStep σ ArcOp.dropImplicitWeak
        { σ with alloc_ref_count := 0, impWeak := false,
                 pendingImpDrop := false, freed := true,
                 fCount := σ.fCount + 1 }
  /-- `impl Clone for Weak` (lines 51-59): `alloc_ref_count.fetch_add(1)`;
  the process aborts unless the old value is `<= usize::MAX / 2`. -/
  | cloneWeak (σ : ArcState) (hl : 1 ≤ σ.liveWeak)
      (hg : σ.alloc_ref_count ≤ halfUsizeMax) :
      ArcStep σ ArcOp.cloneWeak
        { σ with alloc_ref_count := σ.alloc_ref_count + 1,
                 liveWeak := σ.liveWeak + 1 }
  /-- `impl Drop for Weak` (lines 61-69) on an explicit weak handle,
  `fetch_sub` returned a value other than 1. -/
  | dropWeakOther (σ : ArcState) (hl : 1 ≤ σ.liveWeak)
      (h : σ.alloc_ref_count ≠ 1) :
      ArcStep σ ArcOp.dropWeak
        { σ with alloc_ref_count := σ.alloc_ref_count - 1,
                 liveWeak := σ.liveWeak - 1 }
  /-- same, `fetch_sub` returned 1: acquire fence, free the allocation. -/
  | dropWeakLast (σ : ArcState) (hl : 1 ≤ σ.liveWeak)
      (h : σ.alloc_ref_count = 1) :
      ArcStep σ ArcOp.dropWeak
        { σ with alloc_ref_count := 0, liveWeak := σ.liveWeak - 1,
                 freed := true, fCount := σ.fCount + 1 }
  /-- `Arc::downgrade` (lines 113-134): CAS loop on `alloc_ref_count`
  (spinning while it shows the `get_mut` sentinel, asserting
  `n < usize::MAX - 1`), linearized at the successful `n → n + 1`. -/
  | downgrade (σ : ArcState) (hl : 1 ≤ σ.liveStrong)
      (hg : σ.alloc_ref_count < usizeMax - 1) :
      ArcStep σ ArcOp.downgrade
        { σ with alloc_ref_count := σ.alloc_ref_count + 1,
                 liveWeak := σ.liveWeak + 1 }
  /-- `Weak::upgrade` (lines 30-48), linearized at its successful
  compare-and-swap `count → count + 1`, which requires the observed
  `count` to be nonzero (a zero observation returns `None` with no step). -/
  | upgradeOk (σ : ArcState) (hl : 1 ≤ σ.liveWeak)
      (h : σ.data_ref_count ≠ 0) (hg : σ.data_ref_count < usizeMax) :
      ArcStep σ ArcOp.upgradeOk
        { σ with data_ref_count := σ.data_ref_count + 1,
                 liveStrong := σ.liveStrong + 1 }

/-- The states one allocation can reach from `Arc::new` under any
interleaving of clone/drop/downgrade/upgrade across threads. -/
inductive ArcReachable : ArcState → Prop where
  | init : ArcReachable Arc.new
  | step {σ : ArcState} {op : ArcOp} {σ' : ArcState} :
      ArcReachable σ → ArcStep σ op σ' → ArcReachable σ'

/-- The inductive invariant of the reference-counting protocol:
`data_ref_count` counts the live strong handles; `alloc_ref_count` counts
the live weak handles plus the implicit weak reference; destruction and
free are recorded exactly once, free only after the implicit weak is gone,
which is only after destruction. -/
def ArcInv (σ : ArcState) : Prop :=
  σ.data_ref_count = σ.liveStrong ∧
  σ.alloc_ref_count = σ.liveWeak + bcount σ.impWeak ∧
  (σ.destroyed = true ↔ σ.liveStrong = 0) ∧
  σ.dCount = bcount σ.destroyed ∧
  (σ.freed = true ↔ (σ.impWeak = false ∧ σ.liveWeak = 0)) ∧
  σ.fCount = bcount σ.freed ∧
  (σ.pendingImpDrop = true → σ.destroyed = true ∧ σ.impWeak = true) ∧
  (σ.impWeak = false → σ.destroyed = true)

/- ===================== theorems: helper lemmas ===================== -/

theorem arcInv_init : ArcInv Arc.new := by
  simp [ArcInv, Arc.new, bcount]

theorem arcInv_step {σ : ArcState} {op : ArcOp} {σ' : ArcState}
    (h : ArcInv σ) (hs : ArcStep σ op σ') : ArcInv σ' := by
  obtain ⟨h1, h2, h3, h4, h5, h6, h7, h8⟩ := h
  cases hs with
  | cloneStrong hl hg =>
      have hdes : σ.destroyed = false := by
        cases hdv : σ.destroyed
        · rfl
        · exact absurd (h3.mp hdv) (by omega)
      exact ⟨by dsimp only; omega, h2, by dsimp only; simp [hdes], h4, h5, h6, h7, h8⟩
  | dropStrongOther hl hne =>
      have hdes : σ.destroyed = false := by
        cases hdv : σ.destroyed
        · rfl
        · exact absurd (h3.mp hdv) (by omega)
      exact ⟨by dsimp only; omega, h2, by dsimp only; simp [hdes]; omega, h4, h5, h6, h7, h8⟩
  | dropStrongLast hl he =>
      have hls : σ.liveStrong = 1 := by omega
      have hdes : σ.destroyed = false := by
        cases hdv : σ.destroyed
        · rfl
        · exact absurd (h3.mp hdv) (by omega)
      have himp : σ.impWeak = true := by
        cases hiv : σ.impWeak
        · exact absurd (h8 hiv) (by simp [hdes])
        · rfl
      have hdc : σ.dCount = 0 := by rw [h4, hdes]; rfl
      refine ⟨by dsimp only; omega, h2, by dsimp only; simp [hls],
             by dsimp only; simp [bcount]; omega, h5, h6,
             by dsimp only; intro hp; exact ⟨rfl, himp⟩, by dsimp only; simp⟩
  | dropImplicitWeakOther hp hne =>
      obtain ⟨hdes, himp⟩ := h7 hp
      have h2' : σ.alloc_ref_count = σ.liveWeak + 1 := by
        rw [h2, himp]; rfl
      have hfr : σ.freed = false := by
        cases hfv : σ.freed
        · rfl
        · exact absurd (h5.mp hfv).1 (by simp [himp])
      refine ⟨h1, by dsimp only; simp [bcount]; omega, h3, h4,
             by dsimp only; simp [hfr]; omega, h6,
             by dsimp only; simp, by dsimp only; intro _; exact hdes⟩
  | dropImplicitWeakLast hp he =>
      obtain ⟨hdes, himp⟩ := h7 hp
      have h2' : σ.alloc_ref_count = σ.liveWeak + 1 := by
        rw [h2, himp]; rfl
      have hlw : σ.liveWeak = 0 := by omega
      have hfr : σ.freed = false := by
        cases hfv : σ.freed
        · rfl
        · exact absurd (h5.mp hfv).1 (by simp [himp])
      have hfc : σ.fCount = 0 := by rw [h6, hfr]; rfl
      refine ⟨h1, by dsimp only; simp [bcount]; omega, h3, h4,
             by dsimp only; simp [hlw], by dsimp only; simp [bcount]; omega,
             by dsimp only; simp, by dsimp only; intro _; exact hdes⟩
  | cloneWeak hl hg =>
      have hfr : σ.freed = false := by
        cases hfv : σ.freed
        · rfl
        · exact absurd (h5.mp hfv).2 (by omega)
      exact ⟨h1, by dsimp only; omega, h3, h4, by dsimp only; simp [hfr], h6, h7, h8⟩
  | dropWeakOther hl hne =>
      have hfr : σ.freed = false := by
        cases hfv : σ.freed
        · rfl
        · exact absurd (h5.mp hfv).2 (by omega)
      refine ⟨h1, by dsimp only; omega, h3, h4, ?_, h6, h7, h8⟩
      dsimp only
      simp only [hfr]
      cases hiv : σ.impWeak with
      | false =>
          have : σ.alloc_ref_count = σ.liveWeak := by rw [h2, hiv]; simp [bcount]
          simp
          omega
      | true => simp
  | dropWeakLast hl he =>
      have himp : σ.impWeak = false := by
        cases hiv : σ.impWeak
        · rfl
        · exact absurd (by rw [h2, hiv] at he; simpa [bcount] using he) (by omega)
      have h2' : σ.alloc_ref_count = σ.liveWeak := by rw [h2, himp]; simp [bcount]
      have hlw : σ.liveWeak = 1 := by omega
      have hfr : σ.freed = false := by
        cases hfv : σ.freed
        · rfl
        · exact absurd (h5.mp hfv).2 (by omega)
      have hfc : σ.fCount = 0 := by rw [h6, hfr]; rfl
      have hpend : σ.pendingImpDrop = false := by
        cases hpv : σ.pendingImpDrop
        · rfl
        · exact absurd (h7 hpv).2 (by simp [himp])
      refine ⟨h1, by dsimp only; simp [bcount, himp]; omega, h3, h4,
             by dsimp only; simp [himp]; omega, by dsimp only; simp [bcount]; omega,
             by dsimp only; simp [hpend], by dsimp only; intro _; exact h8 himp⟩
  | downgrade hl hg =>
      have hdes : σ.destroyed = false := by
        cases hdv : σ.destroyed
        · rfl
        · exact absurd (h3.mp hdv) (by omega)
      have himp : σ.impWeak = true := by
        cases hiv : σ.impWeak
        · exact absurd (h8 hiv) (by simp [hdes])
        · rfl
      have hfr : σ.freed = false := by
        cases hfv : σ.freed
        · rfl
        · exact absurd (h5.mp hfv).1 (by simp [himp])
      exact ⟨h1, by dsimp only; omega, h3, h4, by dsimp only; simp [hfr, himp], h6, h7, h8⟩
  | upgradeOk hl hne hg =>
      have hdes : σ.destroyed = false := by
        cases hdv : σ.destroyed
        · rfl
        · exact absurd (h3.mp hdv) (by omega)
      exact ⟨by dsimp only; omega, h2, by dsimp only; simp [hdes], h4, h5, h6, h7, h8⟩

theorem arcInv_reachable {σ : ArcState} (h : ArcReachable σ) : ArcInv σ := by
  induction h with
  | init => exact arcInv_init
  | step _ hs ih => exact arcInv_step ih hs

theorem arcStep_dCount {σ : ArcState} {op : ArcOp} {σ' : ArcState}
    (hs : ArcStep σ op σ') (hlt : σ.dCount < σ'.dCount) :
    op = ArcOp.dropStrong ∧ σ.data_ref_count = 1 ∧ σ'.data_ref_count = 0 ∧
      σ'.dCount = σ.dCount + 1 := by
  cases hs
  case dropStrongLast hl he => exact ⟨rfl, he, rfl, rfl⟩
  all_goals exact absurd hlt (lt_irrefl _)

theorem arcStep_fCount {σ : ArcState} {op : ArcOp} {σ' : ArcState}
    (hs : ArcStep σ op σ') (hlt : σ.fCount < σ'.fCount) :
    (op = ArcOp.dropWeak ∨ op = ArcOp.dropImplicitWeak) ∧ σ.alloc_ref_count = 1 ∧
      σ'.alloc_ref_count = 0 ∧ σ'.fCount = σ.fCount + 1 := by
  cases hs
  case dropWeakLast hl he => exact ⟨Or.inl rfl, he, rfl, rfl⟩
  case dropImplicitWeakLast hp he => exact ⟨Or.inr rfl, he, rfl, rfl⟩
  all_goals exact absurd hlt (lt_irrefl _)

theorem rw_reach_even_readers (n : Nat) :
    RwReachable { state := (2 * n) % w32, writer_wake_counter := 0,
                  readGuards := n, writeGuards := 0 } := by
  induction n with
  | zero => exact RwReachable.init
  | succ k ih =>
      have heven : ((2 * k) % w32) % 2 = 0 := by simp only [w32]; omega
      have hassert : (2 * k) % w32 ≠ u32Max - 2 := by
        simp only [w32, u32Max]; omega
      have heq : ((2 * k) % w32 + 2) % w32 = (2 * (k + 1)) % w32 := by
        simp only [w32]; omega
      have h := RwReachable.step ih (RwStep.acquireRead _ heven hassert)
      rw [heq] at h
      exact h

theorem upgradeGo_char (env : List Nat) (c : Nat) :
    (upgradeGo c env).2.2 ≠ [] ∧
    ((upgradeGo c env).1 = none ↔ 0 ∈ (upgradeGo c env).2.2) ∧
    ((upgradeGo c env).1 = none → (upgradeGo c env).2.1 = []) ∧
    (∀ v, (upgradeGo c env).1 = some v →
      (upgradeGo c env).2.2.getLast? = some (v - 1) ∧ v - 1 ≠ 0 ∧
      (upgradeGo c env).2.1 = [⟨ArcField.dataRef, v - 1, v⟩]) := by
  induction env generalizing c with
  | nil =>
      by_cases hc : c = 0
      · simp [upgradeGo, hc]
      · simp [upgradeGo, hc, eq_comm]
  | cons e es ih =>
      by_cases hc : c = 0
      · simp [upgradeGo, hc]
      · have hie := ih e
        rcases hu : upgradeGo e es with ⟨r, ws, obs⟩
        rw [hu] at hie
        obtain ⟨hobs, hnone, hwempty, hsome⟩ := hie
        dsimp only at hobs hnone hwempty hsome
        simp only [upgradeGo, if_neg hc, hu]
        refine ⟨by simp, ?_, hwempty, ?_⟩
        · rw [hnone]
          constructor
          · intro h0
            exact List.mem_cons_of_mem _ h0
          · intro h0
            rcases List.mem_cons.mp h0 with h | h
            · exact absurd h.symm hc
            · exact h
        · intro v hv
          obtain ⟨hlast, hne, hws⟩ := hsome v hv
          cases obs with
          | nil => exact absurd rfl hobs
          | cons b l =>
              refine ⟨?_, hne, hws⟩
              rw [List.getLast?_cons_cons]
              exact hlast

/- ===================== theorems: the claims ===================== -/

/-- C1: for every interleaved sequence of clone/drop (and downgrade/upgrade)
operations on strong and weak handles starting from `Arc::new`, the
payload's destructor (`ManuallyDrop::drop`) runs at most once — exactly
once when every handle (strong, weak and the implicit weak) is gone — and
only in the drop of the strong handle whose `fetch_sub` takes
`data_ref_count` from 1 to 0; the allocation is freed at most once —
exactly once when every handle is gone — and only in the drop of a weak
handle (explicit, or the implicit one released by the last strong drop)
whose `fetch_sub` takes `alloc_ref_count` from 1 to 0; and the allocation
is never freed before the payload destructor has run. -/
theorem C1_payload_destroyed_and_freed_once (σ : ArcState) (h : ArcReachable σ) :
    σ.dCount ≤ 1 ∧ σ.fCount ≤ 1 ∧
    (σ.freed = true → σ.destroyed = true) ∧
    (σ.liveStrong = 0 ∧ σ.liveWeak = 0 ∧ σ.impWeak = false →
      σ.dCount = 1 ∧ σ.fCount = 1) ∧
    (∀ (op : ArcOp) (σ' : ArcState), ArcStep σ op σ' → σ.dCount < σ'.dCount →
      op = ArcOp.dropStrong ∧ σ.data_ref_count = 1 ∧ σ'.data_ref_count = 0 ∧
        σ'.dCount = σ.dCount + 1) ∧
    (∀ (op : ArcOp) (σ' : ArcState), ArcStep σ op σ' → σ.fCount < σ'.fCount →
      (op = ArcOp.dropWeak ∨ op = ArcOp.dropImplicitWeak) ∧
        σ.alloc_ref_count = 1 ∧ σ'.alloc_ref_count = 0 ∧
        σ'.fCount = σ.fCount + 1) := by
  obtain ⟨h1, h2, h3, h4, h5, h6, h7, h8⟩ := arcInv_reachable h
  refine ⟨?_, ?_, ?_, ?_, fun op σ' hs hlt => arcStep_dCount hs hlt,
         fun op σ' hs hlt => arcStep_fCount hs hlt⟩
  · rw [h4]; cases σ.destroyed <;> simp [bcount]
  · rw [h6]; cases σ.freed <;> simp [bcount]
  · intro hfr
    exact h8 (h5.mp hfr).1
  · rintro ⟨hls, hlw, hiw⟩
    constructor
    · rw [h4, h3.mpr hls]; rfl
    · rw [h6, h5.mpr ⟨hiw, hlw⟩]; rfl

/-- Witness for C1: its conclusion at the initial state `Arc::new`. -/
theorem C1_payload_destroyed_and_freed_once_witness :
    Arc.new.dCount ≤ 1 ∧ Arc.new.fCount ≤ 1 ∧
    (Arc.new.freed = true → Arc.new.destroyed = true) ∧
    (Arc.new.liveStrong = 0 ∧ Arc.new.liveWeak = 0 ∧ Arc.new.impWeak = false →
      Arc.new.dCount = 1 ∧ Arc.new.fCount = 1) ∧
    (∀ (op : ArcOp) (σ' : ArcState), ArcStep Arc.new op σ' →
      Arc.new.dCount < σ'.dCount →
      op = ArcOp.dropStrong ∧ Arc.new.data_ref_count = 1 ∧
        σ'.data_ref_count = 0 ∧ σ'.dCount = Arc.new.dCount + 1) ∧
    (∀ (op : ArcOp) (σ' : ArcState), ArcStep Arc.new op σ' →
      Arc.new.fCount < σ'.fCount →
      (op = ArcOp.dropWeak ∨ op = ArcOp.dropImplicitWeak) ∧
        Arc.new.alloc_ref_count = 1 ∧ σ'.alloc_ref_count = 0 ∧
        σ'.fCount = Arc.new.fCount + 1) :=
  C1_payload_destroyed_and_freed_once Arc.new ArcReachable.init

/-- C2: the claimed mutual-exclusion invariant — never a write guard and a
read guard at once — is violated by the code in a reachable state: from a
fresh lock, `2 ^ 31` successful `read()` acquisitions wrap the `u32` state
word (… + 2 at `0xFFFFFFFE` gives 0) because the overflow assert compares
the even `s` against the odd `u32::MAX - 2` and so never fires; a `write()`
then finds `state = 0 <= 1` and installs `u32::MAX` while `2 ^ 31` read
guards are live. -/
theorem C2_rwlock_writer_with_readers_reachable :
    RwReachable { state := u32Max, writer_wake_counter := 0,
                  readGuards := 2 ^ 31, writeGuards := 1 } ∧
    0 < (2 ^ 31 : Nat) ∧
    (∀ s : Nat, s % 2 = 0 → s ≠ u32Max - 2) := by
  refine ⟨?_, by norm_num, fun s hs => by simp only [u32Max, w32]; omega⟩
  have h := rw_reach_even_readers (2 ^ 31)
  have h0 : (2 * 2 ^ 31) % w32 = 0 := by simp [w32]
  rw [h0] at h
  exact RwReachable.step h (RwStep.acquireWrite _ (Nat.zero_le 1))

/-- C3: called while `ready` is still false, `receive` parks exactly once
and then reads the message slot without ever having observed `true` from
the swap — there is no retry loop, contrary to the claim (and to the
source's own comment). -/
theorem C3_receive_reads_after_single_park :
    Receiver.receive false =
      [RecvEvent.swapReady false, RecvEvent.park, RecvEvent.readMessage] ∧
    RecvEvent.swapReady true ∉ Receiver.receive false ∧
    RecvEvent.readMessage ∈ Receiver.receive false := by
  decide

/-- C4: `get_mut` returns a mutable reference iff `data_ref_count = 1` and
`alloc_ref_count = 1` at the call; in every case the final
`alloc_ref_count` equals the initial one, the transient `usize::MAX`
sentinel being stored and then replaced by 1 exactly on the successful
compare-exchange path. -/
theorem C4_get_mut_iff_unique (strong alloc : Nat) :
    ((Arc.getMut strong alloc).1 = true ↔ (strong = 1 ∧ alloc = 1)) ∧
    (Arc.getMut strong alloc).2.1 = alloc ∧
    (alloc = 1 → (Arc.getMut strong alloc).2.2 = [usizeMax, 1]) ∧
    (alloc ≠ 1 → (Arc.getMut strong alloc).2.2 = []) := by
  by_cases ha : alloc = 1 <;> simp [Arc.getMut, ha]

/-- Witness for C4: at `strong = 1`, `alloc = 1` the call succeeds and
restores the counter. -/
theorem C4_get_mut_iff_unique_witness :
    ((Arc.getMut 1 1).1 = true ↔ ((1 : Nat) = 1 ∧ (1 : Nat) = 1)) ∧
    (Arc.getMut 1 1).2.1 = 1 ∧
    ((1 : Nat) = 1 → (Arc.getMut 1 1).2.2 = [usizeMax, 1]) ∧
    ((1 : Nat) ≠ 1 → (Arc.getMut 1 1).2.2 = []) :=
  C4_get_mut_iff_unique 1 1

/-- C5 counterexample: the call that loads `data_ref_count = 1`, loses its
compare-and-swap to a concurrent change that leaves 0, and then observes 0,
returns `None` even though it observed a nonzero strong-count (a strong
handle existed) at an instant during the call — refuting "returns Some iff
it observes a nonzero strong-count during its compare-and-swap loop". -/
theorem C5_upgrade_nonzero_observation_counterexample :
    (upgradeGo 1 [0]).1 = none ∧ (1 : Nat) ∈ (upgradeGo 1 [0]).2.2 ∧
    (1 : Nat) ≠ 0 := by
  decide

/-- C5 (amended): `upgrade` returns `None` iff it observes strong-count 0
at some attempt (so `Some` iff every observed value — in particular the
decisive one its successful compare-and-swap starts from — is nonzero); on
success it performs exactly the one compare-and-swap that increments the
observed nonzero strong-count; and a successful upgrade step never runs on
an allocation whose payload has been destroyed. -/
theorem C5_upgrade_some_iff_nonzero (c : Nat) (env : List Nat) :
    ((upgradeGo c env).1 = none ↔ 0 ∈ (upgradeGo c env).2.2) ∧
    (∀ v, (upgradeGo c env).1 = some v →
      (upgradeGo c env).2.2.getLast? = some (v - 1) ∧ v - 1 ≠ 0 ∧
      v = (v - 1) + 1 ∧
      (upgradeGo c env).2.1 = [⟨ArcField.dataRef, v - 1, v⟩]) ∧
    (∀ (σ σ' : ArcState), ArcReachable σ → ArcStep σ ArcOp.upgradeOk σ' →
      σ.destroyed = false ∧ σ'.destroyed = false) := by
  refine ⟨(upgradeGo_char env c).2.1, ?_, ?_⟩
  · intro v hv
    obtain ⟨hlast, hne, hws⟩ := (upgradeGo_char env c).2.2.2 v hv
    exact ⟨hlast, hne, by omega, hws⟩
  · intro σ σ' hr hs
    obtain ⟨h1, h2, h3, h4, h5, h6, h7, h8⟩ := arcInv_reachable hr
    cases hs with
    | upgradeOk hl hne hg =>
        have hdes : σ.destroyed = false := by
          cases hdv : σ.destroyed
          · rfl
          · exact absurd (h3.mp hdv) (by omega)
        exact ⟨hdes, hdes⟩

/-- Witness for C5's amended theorem: at `c = 1`, `env = []` the call
succeeds with the single increment 1 → 2. -/
theorem C5_upgrade_some_iff_nonzero_witness :
    ((upgradeGo 1 []).1 = none ↔ 0 ∈ (upgradeGo 1 []).2.2) ∧
    (∀ v, (upgradeGo 1 []).1 = some v →
      (upgradeGo 1 []).2.2.getLast? = some (v - 1) ∧ v - 1 ≠ 0 ∧
      v = (v - 1) + 1 ∧
      (upgradeGo 1 []).2.1 = [⟨ArcField.dataRef, v - 1, v⟩]) ∧
    (∀ (σ σ' : ArcState), ArcReachable σ → ArcStep σ ArcOp.upgradeOk σ' →
      σ.destroyed = false ∧ σ'.destroyed = false) :=
  C5_upgrade_some_iff_nonzero 1 []

/-- C6: whenever a notify (one or all) starts strictly after the waiter
has registered itself in `num_waiters` and recorded the counter value, it
sees `num_waiters > 0`, increments the counter and issues a wake; wherever
the waiter's blocking call lands relative to those actions, the waiter is
not left blocked: either the counter already differs from its recorded
value when it blocks, or the wake reaches it. -/
theorem C6_condvar_no_lost_wakeup (c0 n0 : Nat) (p : Fin 4) :
    (condvarRun c0 n0 p).counter = c0 + 1 ∧
    (condvarRun c0 n0 p).wakeIssued = true ∧
    (condvarRun c0 n0 p).waiterDone = true ∧
    (condvarRun c0 n0 p).waiterBlocked = false := by
  fin_cases p <;>
    simp [condvarRun, cvWaiterWait, cvNotifyInc, cvNotifyWake, Nat.succ_ne_self]

/-- C7: dropping a read guard subtracts 2 from the state word (wrapping, as
`fetch_sub` does); the writer wake-counter is incremented and a wake issued
exactly when the resulting state is 1 — equivalently when the old state was
3 — and for any other resulting state the wake-counter is unchanged and no
wake is issued. -/
theorem C7_read_guard_drop_wakes_iff_last_reader (s w : Nat) (hs : s < w32) :
    (ReadGuard.drop s w).1 = (s + (w32 - 2)) % w32 ∧
    ((ReadGuard.drop s w).1 = 1 ↔ s = 3) ∧
    (s = 3 → (ReadGuard.drop s w).2.1 = (w + 1) % w32 ∧
      (ReadGuard.drop s w).2.2 = true) ∧
    (s ≠ 3 → (ReadGuard.drop s w).2.1 = w ∧
      (ReadGuard.drop s w).2.2 = false) := by
  by_cases h3 : s = 3 <;>
    simp [ReadGuard.drop, h3] <;> simp only [w32] at * <;> omega

/-- Witness for C7: the last reader leaving at state 3 with a writer
waiting. -/
theorem C7_read_guard_drop_wakes_iff_last_reader_witness :
    (3 : Nat) < w32 ∧
    ((ReadGuard.drop 3 0).1 = (3 + (w32 - 2)) % w32 ∧
     ((ReadGuard.drop 3 0).1 = 1 ↔ (3 : Nat) = 3) ∧
     ((3 : Nat) = 3 → (ReadGuard.drop 3 0).2.1 = (0 + 1) % w32 ∧
       (ReadGuard.drop 3 0).2.2 = true) ∧
     ((3 : Nat) ≠ 3 → (ReadGuard.drop 3 0).2.1 = 0 ∧
       (ReadGuard.drop 3 0).2.2 = false)) :=
  ⟨by decide, C7_read_guard_drop_wakes_iff_last_reader 3 0 (by decide)⟩

/-- C8 counterexample: at a pre-increment count of exactly
`usize::MAX / 2`, the incremented counter exceeds half the maximum
representable value, yet the guard (`old > usize::MAX / 2`) does not fire
and clone does not abort — refuting "aborts whenever the counter would
exceed half the maximum". -/
theorem C8_clone_abort_threshold_counterexample :
    (Arc.clone 0 halfUsizeMax).1 = false ∧
    halfUsizeMax < (Arc.clone 0 halfUsizeMax).2.1 ∧
    (Weak.clone 0 halfUsizeMax).1 = false ∧
    halfUsizeMax < (Weak.clone 0 halfUsizeMax).2.1 := by
  decide

/-- C8 (amended): strong and weak clone increment their counter with
relaxed ordering and abort the process iff the pre-increment value strictly
exceeds `usize::MAX / 2` (so the counter itself can reach
`usize::MAX / 2 + 1` without an abort); at or below that threshold clone
never aborts and yields a handle to the same allocation. -/
theorem C8_clone_overflow_guard (ptr count : Nat) :
    ((Arc.clone ptr count).1 = true ↔ halfUsizeMax < count) ∧
    (Arc.clone ptr count).2.1 = count + 1 ∧
    (Arc.clone ptr count).2.2 = ptr ∧
    ((Weak.clone ptr count).1 = true ↔ halfUsizeMax < count) ∧
    (Weak.clone ptr count).2.1 = count + 1 ∧
    (Weak.clone ptr count).2.2 = ptr := by
  simp [Arc.clone, Weak.clone]

/-- C9: `SpinLock::unlock` takes the lock through a shared reference and
unconditionally stores `false` into the `locked` flag, whatever the flag
held and however many live guards exist; no guard is consumed or destroyed
by it. -/
theorem C9_unlock_unconditional_store (st : SpinState) :
    (SpinLock.unlock st).locked = false ∧
    (SpinLock.unlock st).liveGuards = st.liveGuards :=
  ⟨rfl, rfl⟩

/-- C10: `upgrade` never writes `alloc_ref_count` in any outcome (every
write it performs is to `data_ref_count`, and the machine-level upgrade
step leaves the allocation count and the weak-handle count unchanged), and
whenever it returns `None` it performs no write at all, so a failed upgrade
has no observable effect on either counter. -/
theorem C10_upgrade_failure_no_writes (c : Nat) (env : List Nat) :
    (∀ w ∈ (upgradeGo c env).2.1, w.loc = ArcField.dataRef) ∧
    ((upgradeGo c env).1 = none → (upgradeGo c env).2.1 = []) ∧
    (∀ v, (upgradeGo c env).1 = some v →
      (upgradeGo c env).2.1 = [⟨ArcField.dataRef, v - 1, v⟩] ∧ v - 1 ≠ 0) ∧
    (∀ (σ σ' : ArcState), ArcStep σ ArcOp.upgradeOk σ' →
      σ'.alloc_ref_count = σ.alloc_ref_count ∧ σ'.liveWeak = σ.liveWeak) := by
  have hc := upgradeGo_char env c
  refine ⟨?_, hc.2.2.1, ?_, ?_⟩
  · intro w hw
    cases hr : (upgradeGo c env).1 with
    | none =>
        rw [hc.2.2.1 hr] at hw
        cases hw
    | some v =>
        obtain ⟨_, _, hws⟩ := hc.2.2.2 v hr
        rw [hws] at hw
        simp at hw
        rw [hw]
  · intro v hv
    obtain ⟨_, hne, hws⟩ := hc.2.2.2 v hv
    exact ⟨hws, hne⟩
  · intro σ σ' hstep
    cases hstep with
    | upgradeOk hl hne hg => exact ⟨rfl, rfl⟩

/-- Witness for C10: at `c = 0`, `env = []` the call fails and performs no
write. -/
theorem C10_upgrade_failure_no_writes_witness :
    (∀ w ∈ (upgradeGo 0 []).2.1, w.loc = ArcField.dataRef) ∧
    ((upgradeGo 0 []).1 = none → (upgradeGo 0 []).2.1 = []) ∧
    (∀ v, (upgradeGo 0 []).1 = some v →
      (upgradeGo 0 []).2.1 = [⟨ArcField.dataRef, v - 1, v⟩] ∧ v - 1 ≠ 0) ∧
    (∀ (σ σ' : ArcState), ArcStep σ ArcOp.upgradeOk σ' →
      σ'.alloc_ref_count = σ.alloc_ref_count ∧ σ'.liveWeak = σ.liveWeak) :=
  C10_upgrade_failure_no_writes 0 []
